import Mathlib

/-!
Verification of the MAL_Scrape.py crawler (julienijs/Anime_Ratings).

The embedding follows `src/MAL_Scrape.py` line by line:
* `get_with_retry` (lines 13-28) becomes `retry_go`/`get_with_retry`,
  a fuelled loop over the attempt counter that also records the number of
  HTTP requests issued and the list of backoff waits slept.
* `process_page` (lines 51-62) becomes `extract_item`/`process_page`.
* the page loop of `main` (lines 64-87) becomes `collect_loop`/`collect`.
* the CSV save (lines 89-109) becomes `record_row`/`write_csv`/`run_main`.

Endpoints are modelled as pure functions: for `get_with_retry` a map from
the 1-based attempt number to the response; for the crawl a map from the
page number to such a per-attempt map.
-/

namespace MALScrape

/-- One entry of the raw `genres` / `demographics` lists: the source only
reads the `name` field (`g["name"]`). -/
structure NamedEntry where
  name : String
deriving Repr, DecidableEq

/-- One raw item of a page's `data` list, with exactly the fields
`process_page` reads.  Optional numeric fields are `Option` because the
upstream JSON may carry `null` there. -/
structure RawItem where
  title : String
  year : Option Int
  score : Option ℚ
  scored_by : Option Nat
  members : Option Nat
  rank : Option Nat
  genres : List NamedEntry
  demographics : List NamedEntry
deriving Repr, DecidableEq

/-- The pagination metadata object; only `last_visible_page` is read. -/
structure Pagination where
  last_visible_page : Nat
deriving Repr, DecidableEq

/-- The JSON body of a page response: `data["pagination"]` and `data["data"]`. -/
structure PageData where
  pagination : Pagination
  data : List RawItem
deriving Repr, DecidableEq

/-- An HTTP response: a status code plus the parsed JSON body. -/
structure Response where
  status : Nat
  json : PageData
deriving Repr, DecidableEq

/-- The fatal errors of the crawler. `rateLimitExceeded` is the
`RuntimeError` raised after the retry loop; `httpError s` is the
exception `response.raise_for_status()` raises for status `s`. -/
inductive Error where
  | rateLimitExceeded : Error
  | httpError : Nat → Error
deriving Repr, DecidableEq

/-- The message of each fatal error, as in the source. -/
def error_message : Error → String
  | .rateLimitExceeded => "Max retries exceeded due to repeated rate limiting"
  | .httpError s => "HTTP error " ++ toString s

/-- `REQUEST_DELAY = 0.5` (line 7). -/
def REQUEST_DELAY : ℚ := 1 / 2

/-- `MAX_RETRIES = 5` (line 8). -/
def MAX_RETRIES : Nat := 5

/-- The observable outcome of one `get_with_retry` call: the returned
response or raised error, the number of HTTP requests issued, and the
backoff waits slept (in order). -/
structure RetryOutcome where
  result : Except Error Response
  requests : Nat
  waits : List ℚ
deriving Repr

/-- The body of the `for attempt in range(1, max_retries + 1)` loop of
`get_with_retry` (lines 14-28).  `fuel` is the number of loop iterations
still available; when it reaches zero the loop has ended and the final
`RuntimeError` is raised, after `attempt - 1` requests. -/
def retry_go (responses : Nat → Response) (attempt : Nat) : Nat → RetryOutcome
  | 0 => ⟨.error .rateLimitExceeded, attempt - 1, []⟩
  | fuel + 1 =>
    let response := responses attempt
    if response.status = 200 then
      ⟨.ok response, attempt, []⟩
    else if response.status = 429 then
      let wait := REQUEST_DELAY * 2 ^ attempt
      let rest := retry_go responses (attempt + 1) fuel
      ⟨rest.result, rest.requests, wait :: rest.waits⟩
    else if 400 ≤ response.status ∧ response.status < 600 then
      ⟨.error (.httpError response.status), attempt, []⟩
    else
      retry_go responses (attempt + 1) fuel

/-- `get_with_retry(url, params, max_retries)` (lines 13-28), with the
URL/params pair abstracted into the per-attempt response map. -/
def get_with_retry (responses : Nat → Response) (max_retries : Nat) : RetryOutcome :=
  retry_go responses 1 max_retries

/-- The record `process_page` appends for one raw item (lines 53-62). -/
structure Record where
  title : String
  year : Option Int
  score : Option ℚ
  scored_by : Option Nat
  members : Option Nat
  rank : Option Nat
  genres : String
  demographics : String
deriving Repr, DecidableEq

/-- One iteration of `process_page`'s loop body (lines 52-62): pick the
fixed fields and join the genre / demographic names with `", "`. -/
def extract_item (anime : RawItem) : Record :=
  { title := anime.title
    year := anime.year
    score := anime.score
    scored_by := anime.scored_by
    members := anime.members
    rank := anime.rank
    genres := String.intercalate ", " (anime.genres.map NamedEntry.name)
    demographics := String.intercalate ", " (anime.demographics.map NamedEntry.name) }

/-- `process_page(page_data)` (lines 51-62): the records appended to
`all_anime` for one page, in item order. -/
def process_page (page_data : List RawItem) : List Record :=
  page_data.map extract_item

/-- The `for page in range(2, total_pages + 1)` loop of `main`
(lines 68-87), over the explicit list of remaining page numbers.  Each
iteration fetches the page with `get_with_retry` and appends its records
to the accumulator; a raised error propagates out at once. -/
def collect_loop (endpoint : Nat → Nat → Response) :
    List Nat → List Record → Except Error (List Record)
  | [], acc => .ok acc
  | page :: rest, acc =>
    match (get_with_retry (endpoint page) MAX_RETRIES).result with
    | .error e => .error e
    | .ok response => collect_loop endpoint rest (acc ++ process_page response.json.data)

/-- The collection phase of `main` (lines 33-87): fetch page 1, read
`last_visible_page`, extract page 1, then loop pages `2 .. total_pages`.
Returns the final `all_anime` accumulator, or the first fatal error. -/
def collect (endpoint : Nat → Nat → Response) : Except Error (List Record) :=
  match (get_with_retry (endpoint 1) MAX_RETRIES).result with
  | .error e => .error e
  | .ok response =>
    let total_pages := response.json.pagination.last_visible_page
    collect_loop endpoint (List.range' 2 (total_pages - 1)) (process_page response.json.data)

/-- How `csv.DictWriter` serializes an optional integer cell: `None`
becomes the empty field, a number its decimal text. -/
def csv_cell_int : Option Int → String
  | none => ""
  | some n => toString n

/-- How `csv.DictWriter` serializes an optional natural-number cell. -/
def csv_cell_nat : Option Nat → String
  | none => ""
  | some n => toString n

/-- How `csv.DictWriter` serializes an optional rational (`score`) cell. -/
def csv_cell_rat : Option ℚ → String
  | none => ""
  | some q => toString q

/-- `fieldnames` (lines 95-104): the CSV column order. -/
def fieldnames : List String :=
  ["title", "year", "score", "scored_by", "members", "rank", "genres", "demographics"]

/-- One CSV data row for a record, cells in `fieldnames` order
(`writer.writerows`, line 109). -/
def record_row (r : Record) : List String :=
  [r.title, csv_cell_int r.year, csv_cell_rat r.score, csv_cell_nat r.scored_by,
    csv_cell_nat r.members, csv_cell_nat r.rank, r.genres, r.demographics]

/-- The persisted CSV artifact (lines 106-109): header row then one row
per accumulated record, in accumulator order. -/
def write_csv (records : List Record) : List (List String) :=
  fieldnames :: records.map record_row

/-- All of `main` (lines 33-114): collect every page, and only on full
success write the CSV artifact; any fatal error propagates before the
file is opened, so no artifact exists then. -/
def run_main (endpoint : Nat → Nat → Response) : Except Error (List (List String)) :=
  match collect endpoint with
  | .error e => .error e
  | .ok records => .ok (write_csv records)

/-- An endpoint that answers every request for page `p` immediately with
status 200 and the `p`-th element of `pages` (1-based). -/
def okEndpoint (pages : List PageData) : Nat → Nat → Response :=
  fun page _attempt => ⟨200, pages.getD (page - 1) ⟨⟨0⟩, []⟩⟩

/-! ### Helper lemmas about the retry loop -/

/-- Shifts the index of the backoff-wait formula by one, matching the
unfolding of one retry-loop iteration. -/
lemma waits_range_shift (f a : Nat) :
    REQUEST_DELAY * 2 ^ a ::
        (List.range f).map (fun i => REQUEST_DELAY * 2 ^ (a + 1 + i)) =
      (List.range (f + 1)).map fun i => REQUEST_DELAY * 2 ^ (a + i) := by
  rw [List.range_succ_eq_map, List.map_cons, List.map_map]
  have h1 : REQUEST_DELAY * 2 ^ (a + 0) = REQUEST_DELAY * 2 ^ a := by
    rw [Nat.add_zero]
  have h2 : ((fun i => REQUEST_DELAY * 2 ^ (a + i)) ∘ Nat.succ) =
      fun i => REQUEST_DELAY * 2 ^ (a + 1 + i) := by
    funext i
    show REQUEST_DELAY * 2 ^ (a + (i + 1)) = REQUEST_DELAY * 2 ^ (a + 1 + i)
    have : a + (i + 1) = a + 1 + i := by omega
    rw [this]
  rw [h1, h2]

/-- If every response throttles, the loop consumes all its fuel, sleeping
the exponential backoff each time, and ends in `rateLimitExceeded`. -/
lemma retry_go_all_throttled (responses : Nat → Response)
    (h : ∀ n, (responses n).status = 429) :
    ∀ fuel attempt, retry_go responses attempt fuel =
      ⟨.error .rateLimitExceeded, attempt + fuel - 1,
        (List.range fuel).map fun i => REQUEST_DELAY * 2 ^ (attempt + i)⟩ := by
  intro fuel
  induction fuel with
  | zero => intro attempt; simp [retry_go]
  | succ f ih =>
    intro attempt
    have h4 := h attempt
    have h200 : (responses attempt).status ≠ 200 := by rw [h4]; omega
    simp only [retry_go]
    rw [if_neg h200, if_pos h4, ih (attempt + 1)]
    simp only [RetryOutcome.mk.injEq]
    exact ⟨trivial, by omega, waits_range_shift f attempt⟩

/-- If attempts `attempt, …, attempt + j - 1` throttle and attempt
`attempt + j` succeeds (with enough fuel left), the loop returns that
success after `j` backoff sleeps. -/
lemma retry_go_throttled_then_ok (responses : Nat → Response) :
    ∀ (j attempt fuel : Nat), j < fuel →
      (∀ k, attempt ≤ k → k < attempt + j → (responses k).status = 429) →
      (responses (attempt + j)).status = 200 →
      retry_go responses attempt fuel =
        ⟨.ok (responses (attempt + j)), attempt + j,
          (List.range j).map fun i => REQUEST_DELAY * 2 ^ (attempt + i)⟩ := by
  intro j
  induction j with
  | zero =>
    intro attempt fuel hfuel _ h200
    obtain ⟨f, rfl⟩ : ∃ f, fuel = f + 1 := ⟨fuel - 1, by omega⟩
    simp only [Nat.add_zero] at h200
    simp only [retry_go, Nat.add_zero, List.range_zero, List.map_nil]
    rw [if_pos h200]
  | succ j ih =>
    intro attempt fuel hfuel h429 h200
    obtain ⟨f, rfl⟩ : ∃ f, fuel = f + 1 := ⟨fuel - 1, by omega⟩
    have h4 := h429 attempt (le_refl attempt) (by omega)
    have hne : (responses attempt).status ≠ 200 := by rw [h4]; omega
    have hidx : attempt + 1 + j = attempt + (j + 1) := by omega
    have hrest := ih (attempt + 1) f (by omega)
      (fun k hk hk2 => h429 k (by omega) (by omega))
      (by rw [hidx]; exact h200)
    simp only [retry_go]
    rw [if_neg hne, if_pos h4, hrest]
    simp only [RetryOutcome.mk.injEq]
    exact ⟨by rw [hidx], by omega, by rw [waits_range_shift]⟩

/-- If every response has a status that is neither 200 nor 429 nor an
error status (so below 400), the loop retries with no sleep until the
fuel runs out, then ends in `rateLimitExceeded` with an empty wait list. -/
lemma retry_go_silent_statuses (responses : Nat → Response)
    (h : ∀ n, (responses n).status < 400 ∧ (responses n).status ≠ 200 ∧
      (responses n).status ≠ 429) :
    ∀ fuel attempt, retry_go responses attempt fuel =
      ⟨.error .rateLimitExceeded, attempt + fuel - 1, []⟩ := by
  intro fuel
  induction fuel with
  | zero => intro attempt; simp [retry_go]
  | succ f ih =>
    intro attempt
    obtain ⟨hlt, h200, h429⟩ := h attempt
    have hno : ¬(400 ≤ (responses attempt).status ∧ (responses attempt).status < 600) := by
      omega
    simp only [retry_go]
    rw [if_neg h200, if_neg h429, if_neg hno, ih (attempt + 1)]
    simp only [RetryOutcome.mk.injEq]
    exact ⟨trivial, by omega, trivial⟩

/-! ### Concrete inputs used by the witness theorems -/

/-- An empty page body. -/
def emptyBody : PageData := ⟨⟨0⟩, []⟩

/-- An endpoint whose every response is a 429. -/
def throttledEndpoint : Nat → Response := fun _ => ⟨429, emptyBody⟩

/-- An endpoint that throttles on attempts 1 and 2 and succeeds on attempt 3. -/
def throttleTwiceEndpoint : Nat → Response :=
  fun n => if n ≤ 2 then ⟨429, emptyBody⟩ else ⟨200, emptyBody⟩

/-- An endpoint whose every response is a 500 server error. -/
def err500Endpoint : Nat → Response := fun _ => ⟨500, emptyBody⟩

/-- An endpoint whose every response is a 301 redirect status. -/
def redirectEndpoint : Nat → Response := fun _ => ⟨301, emptyBody⟩

/-! ### Claim theorems -/

/-- C2: if the endpoint answers 429 to every request, `get_with_retry`
raises the retries-exhausted error after issuing exactly the configured
maximum number of requests (`MAX_RETRIES = 5` by default), never more. -/
theorem C2_always_throttled_exhausts_retries (responses : Nat → Response)
    (m : Nat) (h : ∀ n, (responses n).status = 429) :
    (get_with_retry responses m).result = .error .rateLimitExceeded ∧
    (get_with_retry responses m).requests = m ∧ MAX_RETRIES = 5 := by
  rw [get_with_retry, retry_go_all_throttled responses h m 1]
  exact ⟨rfl, by show 1 + m - 1 = m; omega, rfl⟩

/-- Witness for C2 at the always-throttling endpoint with the default
maximum of 5 retries. -/
theorem C2_witness :
    (get_with_retry throttledEndpoint 5).result = .error .rateLimitExceeded ∧
    (get_with_retry throttledEndpoint 5).requests = 5 ∧ MAX_RETRIES = 5 :=
  C2_always_throttled_exhausts_retries throttledEndpoint 5 (fun _ => rfl)

/-- C3: if the endpoint throttles on attempts `1..N` and succeeds on
attempt `N+1`, with `N` below the configured maximum, `get_with_retry`
issues exactly `N+1` requests, sleeps `REQUEST_DELAY * 2 ^ k` before the
`k`-th retry for `k = 1..N`, and returns the successful response. -/
theorem C3_backoff_then_success (responses : Nat → Response) (m N : Nat)
    (hN : N < m)
    (h429 : ∀ k, 1 ≤ k → k ≤ N → (responses k).status = 429)
    (h200 : (responses (N + 1)).status = 200) :
    get_with_retry responses m =
      ⟨.ok (responses (N + 1)), N + 1,
        (List.range N).map fun k => REQUEST_DELAY * 2 ^ (k + 1)⟩ := by
  have h1N : 1 + N = N + 1 := by omega
  have h := retry_go_throttled_then_ok responses N 1 m hN
    (fun k hk1 hk2 => h429 k hk1 (by omega)) (by rw [h1N]; exact h200)
  have hw : (fun i => REQUEST_DELAY * 2 ^ (1 + i)) =
      fun k => REQUEST_DELAY * 2 ^ (k + 1) := by
    funext i
    rw [Nat.add_comm]
  rw [get_with_retry, h, h1N, hw]

/-- Witness for C3 with two throttles followed by a success. -/
theorem C3_witness :
    get_with_retry throttleTwiceEndpoint 5 =
      ⟨.ok (throttleTwiceEndpoint 3), 3,
        (List.range 2).map fun k => REQUEST_DELAY * 2 ^ (k + 1)⟩ :=
  C3_backoff_then_success throttleTwiceEndpoint 5 2 (by omega)
    (fun k hk1 hk2 => by
      simp only [throttleTwiceEndpoint]
      rw [if_pos (by omega)])
    (by simp only [throttleTwiceEndpoint]
        rw [if_neg (by omega)])

/-- C4: a non-throttling error status (4xx other than 429, or 5xx) on the
first attempt makes `get_with_retry` raise `httpError s` at once, after
exactly one request and with no retry sleep; and when the fetch of any
page of the crawl loop fails that way, `collect_loop` aborts immediately
with that error, so the result carries no records from that page on. -/
theorem C4_http_error_aborts (responses : Nat → Response) (m s : Nat)
    (endpoint : Nat → Nat → Response) (p : Nat) (rest : List Nat)
    (acc : List Record) (hm : 1 ≤ m)
    (hs : (responses 1).status = s) (h4 : 400 ≤ s) (h6 : s < 600)
    (hne : s ≠ 429)
    (herr : (get_with_retry (endpoint p) MAX_RETRIES).result =
      .error (.httpError s)) :
    get_with_retry responses m = ⟨.error (.httpError s), 1, []⟩ ∧
    collect_loop endpoint (p :: rest) acc = .error (.httpError s) := by
  constructor
  · obtain ⟨f, rfl⟩ : ∃ f, m = f + 1 := ⟨m - 1, by omega⟩
    have h200 : (responses 1).status ≠ 200 := by omega
    have h429 : (responses 1).status ≠ 429 := by omega
    have hyes : 400 ≤ (responses 1).status ∧ (responses 1).status < 600 := by omega
    rw [get_with_retry]
    simp only [retry_go]
    rw [if_neg h200, if_neg h429, if_pos hyes, hs]
  · simp only [collect_loop]
    rw [herr]

/-- Witness for C4 at an endpoint answering 500, for a crawl positioned
at page 2 with page 3 still pending. -/
theorem C4_witness :
    get_with_retry err500Endpoint 5 = ⟨.error (.httpError 500), 1, []⟩ ∧
    collect_loop (fun _ _ => ⟨500, emptyBody⟩) (2 :: [3]) [] =
      .error (.httpError 500) :=
  C4_http_error_aborts err500Endpoint 5 500 (fun _ _ => ⟨500, emptyBody⟩) 2 [3] []
    (by omega) rfl (by omega) (by omega) (by omega) rfl

/-- C9: if every response's status is below 400 but neither 200 nor 429
(for example a 3xx), `get_with_retry` retries with no sleep at all, and
after the maximum number of attempts raises the retries-exhausted error,
whose message blames repeated rate limiting although none occurred. -/
theorem C9_silent_status_loops_without_sleep (responses : Nat → Response)
    (m : Nat)
    (h : ∀ n, (responses n).status < 400 ∧ (responses n).status ≠ 200 ∧
      (responses n).status ≠ 429) :
    get_with_retry responses m = ⟨.error .rateLimitExceeded, m, []⟩ ∧
    error_message .rateLimitExceeded =
      "Max retries exceeded due to repeated rate limiting" := by
  constructor
  · rw [get_with_retry, retry_go_silent_statuses responses h m 1]
    simp only [RetryOutcome.mk.injEq]
    exact ⟨trivial, by omega, trivial⟩
  · rfl

/-- Witness for C9 at an endpoint answering 301 to every request. -/
theorem C9_witness :
    get_with_retry redirectEndpoint 5 = ⟨.error .rateLimitExceeded, 5, []⟩ ∧
    error_message .rateLimitExceeded =
      "Max retries exceeded due to repeated rate limiting" :=
  C9_silent_status_loops_without_sleep redirectEndpoint 5
    (fun _ => by simp [redirectEndpoint])

/-- A sample raw item with every optional field present. -/
def sampleItem : RawItem :=
  { title := "Sample"
    year := some 2000
    score := some 8
    scored_by := some 100
    members := some 50
    rank := some 1
    genres := [⟨"Action"⟩]
    demographics := [⟨"Shounen"⟩] }

/-- A raw item whose every optional numeric field is null and whose
genre / demographic lists are empty. -/
def nullItem : RawItem :=
  { title := "Null"
    year := none
    score := none
    scored_by := none
    members := none
    rank := none
    genres := []
    demographics := [] }

/-- A raw item with the two-element genres list Action, Drama. -/
def actionDramaItem : RawItem :=
  { sampleItem with genres := [⟨"Action"⟩, ⟨"Drama"⟩] }

/-- C1: for any three successful pages whose page-1 metadata reports 3
total pages and whose item lists have lengths 25, 25 and 7, `collect`
returns the concatenation of the three pages' extracted records, in page
order and within each page in the original item order — 57 records. -/
theorem C1_three_pages_57_records (items1 items2 items3 : List RawItem)
    (m2 m3 : Pagination)
    (h1 : items1.length = 25) (h2 : items2.length = 25)
    (h3 : items3.length = 7) :
    collect (okEndpoint [⟨⟨3⟩, items1⟩, ⟨m2, items2⟩, ⟨m3, items3⟩]) =
      .ok (process_page items1 ++ process_page items2 ++ process_page items3) ∧
    (process_page items1 ++ process_page items2 ++ process_page items3).length
      = 57 := by
  refine ⟨rfl, ?_⟩
  simp [process_page, h1, h2, h3]

/-- Witness for C1 on concrete pages of 25, 25 and 7 copies of a sample
item. -/
theorem C1_witness :
    collect (okEndpoint
        [⟨⟨3⟩, List.replicate 25 sampleItem⟩,
          ⟨⟨3⟩, List.replicate 25 sampleItem⟩,
          ⟨⟨3⟩, List.replicate 7 sampleItem⟩]) =
      .ok (process_page (List.replicate 25 sampleItem) ++
        process_page (List.replicate 25 sampleItem) ++
        process_page (List.replicate 7 sampleItem)) ∧
    (process_page (List.replicate 25 sampleItem) ++
      process_page (List.replicate 25 sampleItem) ++
      process_page (List.replicate 7 sampleItem)).length = 57 :=
  C1_three_pages_57_records (List.replicate 25 sampleItem)
    (List.replicate 25 sampleItem) (List.replicate 7 sampleItem) ⟨3⟩ ⟨3⟩
    (by simp) (by simp) (by simp)

/-- C5: persistence is all-or-nothing — `run_main` hands the Sink the CSV
of the full accumulator exactly when every page was collected, and on any
fatal error it produces that error and no artifact at all. -/
theorem C5_all_or_nothing_persistence (endpoint : Nat → Nat → Response) :
    (∃ records, collect endpoint = .ok records ∧
      run_main endpoint = .ok (write_csv records)) ∨
    (∃ e, collect endpoint = .error e ∧ run_main endpoint = .error e) := by
  rcases hc : collect endpoint with e | records
  · exact .inr ⟨e, rfl, by simp only [run_main, hc]⟩
  · exact .inl ⟨records, rfl, by simp only [run_main, hc]⟩

/-- C6: a null optional numeric field (score, year, scored_by, members,
rank) is carried through extraction unchanged as an absent value, and its
CSV cell is written as the empty field, never as "0". -/
theorem C6_null_numeric_fields_stay_absent (item : RawItem) :
    (extract_item item).score = item.score ∧
    (extract_item item).year = item.year ∧
    (extract_item item).scored_by = item.scored_by ∧
    (extract_item item).members = item.members ∧
    (extract_item item).rank = item.rank ∧
    (item.year = none → (record_row (extract_item item)).get? 1 = some "" ∧
      (record_row (extract_item item)).get? 1 ≠ some "0") ∧
    (item.score = none → (record_row (extract_item item)).get? 2 = some "" ∧
      (record_row (extract_item item)).get? 2 ≠ some "0") ∧
    (item.scored_by = none → (record_row (extract_item item)).get? 3 = some "" ∧
      (record_row (extract_item item)).get? 3 ≠ some "0") ∧
    (item.members = none → (record_row (extract_item item)).get? 4 = some "" ∧
      (record_row (extract_item item)).get? 4 ≠ some "0") ∧
    (item.rank = none → (record_row (extract_item item)).get? 5 = some "" ∧
      (record_row (extract_item item)).get? 5 ≠ some "0") := by
  refine ⟨rfl, rfl, rfl, rfl, rfl, ?_, ?_, ?_, ?_, ?_⟩ <;>
    intro h <;>
    simp [record_row, extract_item, csv_cell_int, csv_cell_rat, csv_cell_nat, h]

/-- Witness for C6 at the all-null item: every optional cell is the empty
field. -/
theorem C6_witness :
    ((record_row (extract_item nullItem)).get? 1 = some "" ∧
      (record_row (extract_item nullItem)).get? 1 ≠ some "0") ∧
    ((record_row (extract_item nullItem)).get? 2 = some "" ∧
      (record_row (extract_item nullItem)).get? 2 ≠ some "0") ∧
    ((record_row (extract_item nullItem)).get? 5 = some "" ∧
      (record_row (extract_item nullItem)).get? 5 ≠ some "0") :=
  ⟨(C6_null_numeric_fields_stay_absent nullItem).2.2.2.2.2.1 rfl,
    (C6_null_numeric_fields_stay_absent nullItem).2.2.2.2.2.2.1 rfl,
    (C6_null_numeric_fields_stay_absent nullItem).2.2.2.2.2.2.2.2.2 rfl⟩

/-- C7: the genres and demographics name lists are joined with the exact
delimiter ", " in payload order; for the two-item list Action, Drama the
persisted genres cell is exactly "Action, Drama". -/
theorem C7_delimited_join (item : RawItem) (names : List String)
    (hg : item.genres.map NamedEntry.name = names) :
    (extract_item item).genres = String.intercalate ", " names ∧
    (extract_item item).demographics =
      String.intercalate ", " (item.demographics.map NamedEntry.name) ∧
    (item.genres = [⟨"Action"⟩, ⟨"Drama"⟩] →
      (record_row (extract_item item)).get? 6 = some "Action, Drama") := by
  refine ⟨by rw [extract_item]; simp [hg], rfl, ?_⟩
  intro h
  simp only [record_row, extract_item]
  rw [h]
  rfl

/-- Witness for C7 at the Action, Drama item. -/
theorem C7_witness :
    (extract_item actionDramaItem).genres =
      String.intercalate ", " ["Action", "Drama"] ∧
    (record_row (extract_item actionDramaItem)).get? 6 =
      some "Action, Drama" :=
  ⟨(C7_delimited_join actionDramaItem ["Action", "Drama"] rfl).1,
    (C7_delimited_join actionDramaItem ["Action", "Drama"] rfl).2.2 rfl⟩

/-- C8: a page with an empty item list extracts to zero records, and the
crawl loop appends nothing for it and proceeds to the remaining pages
unchanged, raising no error. -/
theorem C8_empty_page_is_valid (endpoint : Nat → Nat → Response) (p : Nat)
    (rest : List Nat) (acc : List Record) (response : Response)
    (hok : (get_with_retry (endpoint p) MAX_RETRIES).result = .ok response)
    (hempty : response.json.data = []) :
    process_page response.json.data = [] ∧
    collect_loop endpoint (p :: rest) acc = collect_loop endpoint rest acc := by
  constructor
  · rw [hempty]
    rfl
  · simp only [collect_loop]
    rw [hok]
    show collect_loop endpoint rest (acc ++ process_page response.json.data) =
      collect_loop endpoint rest acc
    rw [hempty]
    simp [process_page]

/-- Witness for C8 at an endpoint whose every page is empty. -/
theorem C8_witness :
    process_page (⟨200, emptyBody⟩ : Response).json.data = [] ∧
    collect_loop (okEndpoint []) (2 :: [3]) [] =
      collect_loop (okEndpoint []) [3] [] :=
  C8_empty_page_is_valid (okEndpoint []) 2 [3] [] ⟨200, emptyBody⟩ rfl rfl

/-- C10: an empty genres or demographics list extracts to the empty
string, so the persisted cell is the empty field — identical to the cell
an absent numeric value produces, hence indistinguishable at the artifact
boundary. -/
theorem C10_empty_list_persists_empty (item : RawItem) :
    (item.genres = [] → (extract_item item).genres = "" ∧
      (record_row (extract_item item)).get? 6 = some "" ∧
      some (csv_cell_rat none) = some "") ∧
    (item.demographics = [] → (extract_item item).demographics = "" ∧
      (record_row (extract_item item)).get? 7 = some "" ∧
      some (csv_cell_nat none) = some "") := by
  constructor <;> intro h <;>
    simp [record_row, extract_item, csv_cell_rat, csv_cell_nat, h,
      String.intercalate]

/-- Witness for C10 at the item with empty genre and demographic lists. -/
theorem C10_witness :
    ((extract_item nullItem).genres = "" ∧
      (record_row (extract_item nullItem)).get? 6 = some "" ∧
      some (csv_cell_rat none) = some "") ∧
    ((extract_item nullItem).demographics = "" ∧
      (record_row (extract_item nullItem)).get? 7 = some "" ∧
      some (csv_cell_nat none) = some "") :=
  ⟨(C10_empty_list_persists_empty nullItem).1 rfl,
    (C10_empty_list_persists_empty nullItem).2 rfl⟩

end MALScrape
